import Mathlib

/-!
Verification of the configuration-constants module of the esp-relay
firmware (file secrets.h).  The source declares six string constants:
the admin phone number, a secret activation command, the station-mode
Wi-Fi credentials and the access-point credentials.  We embed the
declarations as Lean definitions, bundle them into a configuration
record, and model the read access and the consumers described by the
specification (the command-authorization check and the access-point
bring-up, which are not part of the provided source).
-/

namespace EspRelay

/-- Embeds `const String ADMIN_PHONE = "+38160123456789";` from secrets.h. -/
def ADMIN_PHONE : String := "+38160123456789"

/-- Embeds `const String SECRET_COMMAND = "openrelay";` from secrets.h. -/
def SECRET_COMMAND : String := "openrelay"

/-- Embeds `#define LOCAL_SSID "MyWiFiNetwork"` from secrets.h. -/
def LOCAL_SSID : String := "MyWiFiNetwork"

/-- Embeds `#define LOCAL_PASS "password1234"` from secrets.h. -/
def LOCAL_PASS : String := "password1234"

/-- Embeds `#define AP_SSID "ESP8266-Access-Point"` from secrets.h. -/
def AP_SSID : String := "ESP8266-Access-Point"

/-- Embeds `#define AP_PASS "123456789"` from secrets.h. -/
def AP_PASS : String := "123456789"

/-- The configuration bundle: the six constants of secrets.h as one record. -/
structure Config where
  adminPhone : String
  secretCommand : String
  localSsid : String
  localPass : String
  apSsid : String
  apPass : String
deriving DecidableEq, Repr

/-- The configuration the repository actually builds: each field holds the
literal from secrets.h. -/
def config : Config :=
  { adminPhone := ADMIN_PHONE
    secretCommand := SECRET_COMMAND
    localSsid := LOCAL_SSID
    localPass := LOCAL_PASS
    apSsid := AP_SSID
    apPass := AP_PASS }

/-- Names of the six configuration constants, for modelling read access. -/
inductive Field where
  | adminPhone
  | secretCommand
  | localSsid
  | localPass
  | apSsid
  | apPass
deriving DecidableEq, Repr

/-- Look up the value of a named constant in a configuration. -/
def fieldValue (c : Config) : Field → String
  | .adminPhone => c.adminPhone
  | .secretCommand => c.secretCommand
  | .localSsid => c.localSsid
  | .localPass => c.localPass
  | .apSsid => c.apSsid
  | .apPass => c.apPass

/-- A single read access by a consuming module: it returns the value and the
(unchanged) configuration state, making any side effect on the bundle
explicit. -/
def readField (f : Field) (c : Config) : String × Config :=
  (fieldValue c f, c)

/-- Run a sequence of reads, threading the configuration state through. -/
def runReads : List Field → Config → List String × Config
  | [], c => ([], c)
  | f :: fs, c =>
    let p := readField f c
    let q := runReads fs p.2
    (p.1 :: q.1, q.2)

/-- Modelled from the spec: the command-authorization logic (not in the
provided source) compares the caller's phone number against ADMIN_PHONE and
succeeds exactly on equality. -/
def commandAuthorized (caller : String) : Bool :=
  caller == ADMIN_PHONE

/-- State of the self-hosted access point: the SSID it advertises and the
password it requires. -/
structure APState where
  advertisedSsid : String
  requiredPass : String
deriving DecidableEq, Repr

/-- Modelled from the spec: the access-point bring-up (not in the provided
source) starts an AP advertising the given SSID and requiring the given
password. -/
def startAccessPoint (ssid pass : String) : APState :=
  { advertisedSsid := ssid, requiredPass := pass }

/-- The access point the firmware hosts, built from AP_SSID and AP_PASS. -/
def apState : APState :=
  startAccessPoint AP_SSID AP_PASS

/-- Modelled from the spec: the access point accepts a connection exactly when
the supplied password equals the required one. -/
def apAccepts (st : APState) (givenPass : String) : Bool :=
  givenPass == st.requiredPass

/-- Rebuild the configuration bundle from six replacement values, as a user
editing secrets.h would. -/
def rebuildConfig (v1 v2 v3 v4 v5 v6 : String) : Config :=
  { adminPhone := v1
    secretCommand := v2
    localSsid := v3
    localPass := v4
    apSsid := v5
    apPass := v6 }

/-- Initialization failures, for modelling the startup of the module. -/
inductive InitError where
  | fail
deriving DecidableEq, Repr

/-- Evaluating a string literal, the only computation the declarations of
secrets.h perform; it always succeeds. -/
def evalStringLiteral (s : String) : Except InitError String :=
  .ok s

/-- Initialization of the configuration-constants module: evaluate the six
declarations of secrets.h in order. -/
def initConfig : Except InitError Config := do
  let a ← evalStringLiteral "+38160123456789"
  let b ← evalStringLiteral "openrelay"
  let c ← evalStringLiteral "MyWiFiNetwork"
  let d ← evalStringLiteral "password1234"
  let e ← evalStringLiteral "ESP8266-Access-Point"
  let f ← evalStringLiteral "123456789"
  pure (rebuildConfig a b c d e f)

/-- Phone-number format check: a leading plus sign followed only by decimal
digits. -/
def phoneFormatOk (s : String) : Bool :=
  match s.data with
  | [] => false
  | c :: rest => c == '+' && rest.all (fun d => d.isDigit)

/-- Whether a string contains any whitespace character. -/
def hasWhitespace (s : String) : Bool :=
  s.data.any Char.isWhitespace

/-- Helper: a sequence of reads leaves the configuration unchanged and
returns exactly the constants, read by read. -/
theorem runReads_spec (fs : List Field) (c : Config) :
    runReads fs c = (fs.map (fieldValue c), c) := by
  induction fs with
  | nil => rfl
  | cons f fs ih => simp [runReads, readField, ih]

end EspRelay

namespace EspRelay

/-- C1: with ADMIN_PHONE bound to "+38160123456789", the command-authorization
check succeeds on caller "+38160123456789" and fails on every other caller
number. -/
theorem C1_command_authorization :
    commandAuthorized "+38160123456789" = true ∧
    ∀ caller : String, caller ≠ "+38160123456789" →
      commandAuthorized caller = false := by
  refine ⟨by decide, ?_⟩
  intro caller hne
  simp [commandAuthorized, ADMIN_PHONE]
  exact hne

/-- Witness for C1 at the concrete callers "+38160123456789" and
"+38160000000000". -/
theorem C1_command_authorization_witness :
    commandAuthorized "+38160123456789" = true ∧
    commandAuthorized "+38160000000000" = false :=
  ⟨C1_command_authorization.1,
   C1_command_authorization.2 "+38160000000000" (by decide)⟩

/-- C2: each of the six configuration values is a non-empty string. -/
theorem C2_all_nonempty :
    ADMIN_PHONE ≠ "" ∧ SECRET_COMMAND ≠ "" ∧ LOCAL_SSID ≠ "" ∧
    LOCAL_PASS ≠ "" ∧ AP_SSID ≠ "" ∧ AP_PASS ≠ "" := by
  refine ⟨?_, ?_, ?_, ?_, ?_, ?_⟩ <;> decide

/-- C3: no sequence of reads by consuming modules changes the configuration,
and every read observes exactly the build-time constant of the field it
names. -/
theorem C3_immutable_under_reads :
    ∀ fs : List Field,
      (runReads fs config).2 = config ∧
      (runReads fs config).1 = fs.map (fieldValue config) := by
  intro fs
  rw [runReads_spec]
  exact ⟨rfl, rfl⟩

/-- C4: ADMIN_PHONE starts with "+" and every later character is a decimal
digit. -/
theorem C4_admin_phone_format :
    phoneFormatOk ADMIN_PHONE = true := by
  decide

/-- C5: SECRET_COMMAND contains no whitespace character. -/
theorem C5_secret_command_no_whitespace :
    hasWhitespace SECRET_COMMAND = false := by
  decide

/-- C6: the access point advertises exactly the SSID "ESP8266-Access-Point",
its required password is exactly "123456789", and a connection is accepted
precisely when that password is supplied. -/
theorem C6_access_point_config :
    apState.advertisedSsid = "ESP8266-Access-Point" ∧
    apState.requiredPass = "123456789" ∧
    ∀ p : String, apAccepts apState p = true ↔ p = "123456789" := by
  refine ⟨rfl, rfl, ?_⟩
  intro p
  simp [apAccepts, apState, startAccessPoint, AP_PASS]

/-- C7: rebuilding the configuration with any six replacement values and
reading each constant back yields exactly the values written. -/
theorem C7_round_trip :
    ∀ v1 v2 v3 v4 v5 v6 : String,
      (rebuildConfig v1 v2 v3 v4 v5 v6).adminPhone = v1 ∧
      (rebuildConfig v1 v2 v3 v4 v5 v6).secretCommand = v2 ∧
      (rebuildConfig v1 v2 v3 v4 v5 v6).localSsid = v3 ∧
      (rebuildConfig v1 v2 v3 v4 v5 v6).localPass = v4 ∧
      (rebuildConfig v1 v2 v3 v4 v5 v6).apSsid = v5 ∧
      (rebuildConfig v1 v2 v3 v4 v5 v6).apPass = v6 := by
  intro v1 v2 v3 v4 v5 v6
  exact ⟨rfl, rfl, rfl, rfl, rfl, rfl⟩

/-- C8: initializing the six declarations never raises an error (it yields
exactly the built configuration), and reading any field has no error
condition and no effect on the configuration state. -/
theorem C8_init_cannot_fail :
    initConfig = Except.ok config ∧
    ∀ (f : Field) (c : Config), readField f c = (fieldValue c f, c) := by
  exact ⟨rfl, fun _ _ => rfl⟩

/-- C9: AP_PASS has length 9, hence at least the WPA2 minimum of 8. -/
theorem C9_ap_pass_length :
    AP_PASS.length = 9 ∧ 8 ≤ AP_PASS.length := by
  decide

/-- C10: the station-mode network name and the access-point network name are
distinct strings. -/
theorem C10_ssids_distinct :
    LOCAL_SSID ≠ AP_SSID := by
  decide

end EspRelay
